import Mathlib

/-!  Verification of the hgi-vault persisted-state engine and filesystem
walkers, as a shallow embedding of `src/api/persistence/models/state.py`
and `src/bin/sandman/walk.py`.  Database tables are modelled as lists of
rows in insertion order (a `SELECT` without `ORDER BY` is read in table
order, and `fetchone` takes the head of the result).  Parts of the
repository that are not under `src/` (the SQL DDL, the
`stakeholder_notified` view, `core.utils.base64`) are modelled from the
spec and carry doc comments saying so.  -/

set_option autoImplicit false
set_option maxRecDepth 4096

/-- Errors raised by the embedded Python code. -/
inductive PyError where
  | assertionError
  | nameError (n : String)
  | indexError
  | valueError
  | sqlSyntaxError
  deriving DecidableEq

/-- File handle as the persistence layer sees it: `state.py` only touches
`file.db_id` (each method asserts `hasattr(file, "db_id")`, which a record
of this structure satisfies by construction). -/
structure PFile where
  db_id : Nat
  deriving DecidableEq

/-- Row of the `status` table: `status(id, file, state)` (spec section 6;
the `created` column is never read or written by the embedded code and is
omitted). -/
structure StatusRow where
  id : Nat
  file : Nat
  state : String
  deriving DecidableEq

/-- Row of the `warnings` table: `warnings(status_id, lead_time)`; the
lead-time is a timedelta, modelled in seconds. -/
structure WarningRow where
  status : Nat
  tminus : Int
  deriving DecidableEq

/-- Row of the `notifications` table.  The code only ever inserts
`(status, stakeholder)` pairs; modelled from the spec, the presence of a
row records that delivery to that stakeholder is flagged true (nothing in
the code writes a false flag). -/
structure NotificationRow where
  status : Nat
  stakeholder : Nat
  deriving DecidableEq

/-- Database state.  `stakeholders` is the external identity-manager
relation (file id, stakeholder uid), modelled from the spec: the spec's
identity manager "resolves stakeholders to a stable unique identifier".
`nextId` is the `status.id` sequence. -/
structure DB where
  status : List StatusRow
  warnings : List WarningRow
  notifications : List NotificationRow
  stakeholders : List (Nat × Nat)
  nextId : Nat
  deriving DecidableEq

/-- Stakeholders of a file, read off the identity-manager relation. -/
def stakeholdersOf (db : DB) (f : Nat) : List Nat :=
  (db.stakeholders.filter (fun q => q.1 == f)).map (fun q => q.2)

/-- States carried by `_PersistedState`: the class variable `db_type` and
the `notified` field inherited from `_BaseState` (`core/persistence.py`),
where `none` stands for the `persistence.Anything` wildcard sentinel. -/
structure BaseState where
  db_type : String
  notified : Option Bool
  deriving DecidableEq

/-- State.Staged (src/api/persistence/models/state.py lines 137-139). -/
def stateStaged (notified : Option Bool) : BaseState := ⟨"staged", notified⟩

/-- State.Deleted (src/api/persistence/models/state.py lines 133-135). -/
def stateDeleted (notified : Option Bool) : BaseState := ⟨"deleted", notified⟩

/-- Python truthiness of the `notified` field as used by
`if self.notified:` in `persist`: `True` and `False` behave as booleans,
and the `Anything` sentinel — a class object — is truthy. -/
def pyTruthy : Option Bool → Bool
  | some b => b
  | none => true

/-- _PersistedState.exists (state.py lines 31-50):
`select id from status where state = %s and file = %s` followed by
`fetchone`; with no `ORDER BY`, the head of the result is the first
matching row in table order. -/
def existsStatus (st : BaseState) (db : DB) (file : PFile) : Option Nat :=
  (db.status.find? (fun r => r.state == st.db_type && r.file == file.db_id)).map
    (fun r => r.id)

/-- True when `notifications` holds a row for the given status row and
stakeholder. -/
def hasNotif (ns : List NotificationRow) (sid s : Nat) : Bool :=
  ns.any (fun r => r.status == sid && r.stakeholder == s)

/-- Notification delivery flag for a (status row, stakeholder) pair. -/
def notifExists (db : DB) (sid s : Nat) : Bool :=
  hasNotif db.notifications sid s

/-- Modelled from the spec: one row of the `stakeholder_notified` view
(its DDL is not under src/) — per status row and per stakeholder of that
row's file, the columns `id` (status id), `file`, `stakeholder` and
`notified` that `mark_notified`'s inner select reads. -/
structure ViewRow where
  id : Nat
  file : Nat
  stakeholder : Nat
  notified : Bool
  deriving DecidableEq

/-- Modelled from the spec: the `stakeholder_notified` view, joining each
status row with the stakeholders of its file and their delivery flags. -/
def stakeholderNotifiedView (db : DB) : List ViewRow :=
  db.status.flatMap (fun r =>
    (stakeholdersOf db r.file).map (fun s => ⟨r.id, r.file, s, notifExists db r.id s⟩))

/-- Insert one `(status, stakeholder)` row under `on conflict do nothing`:
a row for a pair already present is silently skipped (this also applies
between rows of the same statement). -/
def insertNotification (ns : List NotificationRow) (x : NotificationRow) :
    List NotificationRow :=
  if hasNotif ns x.status x.stakeholder then ns else ns ++ [x]

/-- The row set selected by `mark_notified`'s inner query (state.py lines
87-101): the unnotified `stakeholder_notified` rows for `(state_id,
file)`, further scoped to one stakeholder when it is not the `Anything`
wildcard. -/
def auxRows (db : DB) (state_id fileId : Nat) (stakeholder : Option Nat) :
    List ViewRow :=
  (stakeholderNotifiedView db).filter (fun vr =>
    !vr.notified && vr.id == state_id && vr.file == fileId &&
      (match stakeholder with | some u => vr.stakeholder == u | none => true))

/-- Insert a selected row set into `notifications`, row by row, under `on
conflict do nothing`. -/
def insFold (ns : List NotificationRow) (rows : List ViewRow) :
    List NotificationRow :=
  rows.foldl (fun acc vr => insertNotification acc ⟨vr.id, vr.stakeholder⟩) ns

/-- Whitespace for Python `str.strip` and for scanning SQL text. -/
def isWS (c : Char) : Bool := c == ' ' || c == '\t' || c == '\n' || c == '\r'

/-- Drop leading whitespace characters. -/
def dropLeadWS : List Char → List Char
  | [] => []
  | c :: cs => if isWS c then dropLeadWS cs else c :: cs

/-- The select text of `mark_notified`'s inner query (state.py lines
87-94). -/
def notifiedQueryBase : String :=
  "\n            select id,\n                   stakeholder\n            from   stakeholder_notified\n            where  (not notified)\n            and    id   = %s\n            and    file = %s\n        "

/-- The stakeholder clause appended to the select when the stakeholder is
concrete (state.py lines 97-100). -/
def notifiedStakeholderClause : String :=
  "\n                and stakeholder = %s\n            "

/-- `query_sql` as `mark_notified` builds it for a wildcard or concrete
stakeholder. -/
def notifiedQuerySql (stakeholder : Option Nat) : String :=
  match stakeholder with
  | some _ => notifiedQueryBase ++ notifiedStakeholderClause
  | none => notifiedQueryBase

/-- The statement `mark_notified` hands to `t.execute` (state.py lines
103-107): the f-string splices the select text directly after the
`values` keyword. -/
def markNotifiedInsertSql (stakeholder : Option Nat) : String :=
  "\n            insert into notifications (status, stakeholder)\n            values " ++ notifiedQuerySql stakeholder ++ "\n            on conflict do nothing;\n        "

/-- The statement `persist` hands to `t.execute` (state.py lines
62-66). -/
def persistInsertSql : String :=
  "\n            insert into status (file, state)\n            values (%s, %s)\n            returning id;\n        "

/-- Modelled from the spec: the transaction boundary executes statements
on PostgreSQL (`api.persistence.postgres`).  In PostgreSQL's grammar the
`VALUES` of an INSERT must continue with a parenthesized row-constructor
list — a bare `select` keyword there is a syntax error.  The scan finds
the `values` keyword and demands `(` as the next non-whitespace
character. -/
def valuesParenAfter : List Char → Bool
  | 'v' :: 'a' :: 'l' :: 'u' :: 'e' :: 's' :: rest =>
    (dropLeadWS rest).head? == some '('
  | _ :: rest => valuesParenAfter rest
  | [] => true

/-- Whether an INSERT statement's VALUES clause passes the grammar. -/
def insertValuesWellFormed (sql : String) : Bool := valuesParenAfter sql.data

/-- The notification insert issued by `_PersistedState.mark_notified`
(state.py lines 87-107) once the status id is resolved.  The executed
statement is `insert into notifications (status, stakeholder) values
<select ...> on conflict do nothing` — `VALUES` followed by `select`
fails PostgreSQL's grammar, so `t.execute` raises a syntax error on
every call and no row is ever inserted.  The guard keeps the error path
explicit; the `ok` branch records what the selected rows would have
inserted had the statement been grammatical, and is unreachable. -/
def markNotifiedAux (db : DB) (state_id fileId : Nat) (stakeholder : Option Nat) :
    Except PyError DB :=
  let inserted := insFold db.notifications (auxRows db state_id fileId stakeholder)
  if insertValuesWellFormed (markNotifiedInsertSql stakeholder) then
    .ok { db with notifications := inserted }
  else .error .sqlSyntaxError

/-- The insert of `_PersistedState.persist` (state.py lines 62-67):
`insert into status (file, state) values (%s, %s) returning id`, with the
returned id drawn from the sequence. -/
def statusInsert (st : BaseState) (db : DB) (file : PFile) : DB :=
  { db with
    status := db.status ++ [⟨db.nextId, file.db_id, st.db_type⟩],
    nextId := db.nextId + 1 }

/-- _PersistedState.persist (state.py lines 52-74): the status insert,
then — if the state's `notified` field is truthy — the wildcard
`mark_notified` call.  That inner call's `exists` lookup finds a status
row (the insert above guarantees one matches), so its create-if-absent
branch is never taken; the call then dies in the notification insert's
syntax error, which propagates out of persist. -/
def persist (st : BaseState) (db : DB) (file : PFile) : Except PyError (Nat × DB) :=
  let state_id := db.nextId
  let db1 : DB := statusInsert st db file
  if pyTruthy st.notified then
    match existsStatus st db1 file with
    | some sid =>
      match markNotifiedAux db1 sid file.db_id none with
      | .ok db2 => .ok (state_id, db2)
      | .error e => .error e
    | none => .ok (state_id, db1)
  else .ok (state_id, db1)

/-- First half of `mark_notified` (state.py lines 84-85): resolve the
status id for the file, creating the status via `persist` if absent;
persist's own failure propagates. -/
def resolveStatus (st : BaseState) (db : DB) (file : PFile) :
    Except PyError (Nat × DB) :=
  match existsStatus st db file with
  | some i => .ok (i, db)
  | none => persist st db file

/-- _PersistedState.mark_notified (state.py lines 76-107): resolve (or
lazily create) the status id, then execute the notification insert;
`stakeholder = none` is the `Anything` wildcard.  The insert's
`values <select ...>` statement fails PostgreSQL's grammar, so every
call raises at `t.execute`. -/
def mark_notified (st : BaseState) (db : DB) (file : PFile)
    (stakeholder : Option Nat) : Except PyError DB :=
  match resolveStatus st db file with
  | .ok p => markNotifiedAux p.2 p.1 file.db_id stakeholder
  | .error e => .error e

/-- The `Anything`-capable lead-time of `State.Warned` (state.py lines
141-145): `none` is the wildcard sentinel, `some` a concrete timedelta in
seconds. -/
structure WarnedState where
  notified : Option Bool
  tminus : Option Int
  deriving DecidableEq

/-- The query text State.Warned.exists carries, read with the parameter
the method evidently intends (`self.tminus`): `select status.id from
warnings join status on status.id = warnings.status where status.file =
%s and warnings.tminus = %s`, head of the result. -/
def warnedExistsQuery (db : DB) (fileId : Nat) (tminus : Int) : Option Nat :=
  ((db.warnings.flatMap (fun w =>
      (db.status.filter (fun r => r.id == w.status)).map (fun r => (w, r)))).find?
    (fun p => p.2.file == fileId && p.1.tminus == tminus)).map (fun p => p.2.id)

/-- Parameters bound into a SQL fragment. -/
inductive SqlParam where
  | s (v : String)
  | b (v : Bool)
  | iv (v : Int)
  deriving DecidableEq

/-- The base CTE text of `_PersistedState.file_cte` (state.py lines
116-120). -/
def statusCteSql : String :=
  "\n            select file\n            from   status\n            where  state = %s\n        "

/-- The notified clause appended by `file_cte` when the `notified`
criterion is concrete (state.py lines 124-126). -/
def notifiedClauseSql : String :=
  "\n                and notified = %s\n            "

/-- _PersistedState.file_cte (state.py lines 109-128): the parametrized
fragment selecting all files in this state, narrowed by the notified flag
when it is not the wildcard. -/
def file_cte (st : BaseState) : String × List SqlParam :=
  let params := [SqlParam.s st.db_type]
  let sql := statusCteSql
  match st.notified with
  | some nb => (sql ++ notifiedClauseSql, params ++ [SqlParam.b nb])
  | none => (sql, params)

/-- The base CTE text of `State.Warned.file_cte` (state.py lines
182-188). -/
def warnedCteSql : String :=
  "\n               select distinct status.file\n               from   status\n               join   warnings\n               on     warnings.status = state.id\n               where  status.state    = %s\n            "

/-- The notified clause appended by `State.Warned.file_cte` (state.py
lines 192-194). -/
def warnedNotifiedClauseSql : String :=
  "\n                    and notified = %s\n                "

/-- The lead-time clause appended by `State.Warned.file_cte` when the
lead-time criterion is concrete (state.py lines 198-200). -/
def warnedTminusClauseSql : String :=
  "\n                    and warnings.tminus = %s\n                "

/-- State.Warned.file_cte (state.py lines 178-202): base fragment, then
the notified clause when that criterion is concrete, then the lead-time
clause when that criterion is concrete, with parameters appended in the
same order. -/
def warned_file_cte (st : WarnedState) : String × List SqlParam :=
  let params := [SqlParam.s "warned"]
  let sql := warnedCteSql
  let step1 :=
    match st.notified with
    | some nb => (sql ++ warnedNotifiedClauseSql, params ++ [SqlParam.b nb])
    | none => (sql, params)
  match st.tminus with
  | some tm => (step1.1 ++ warnedTminusClauseSql, step1.2 ++ [SqlParam.iv tm])
  | none => step1

/-- Number of `%s` placeholders in a piece of SQL text. -/
def countPS : List Char → Nat
  | '%' :: 's' :: rest => countPS rest + 1
  | _ :: rest => countPS rest
  | [] => 0

/-- Vault classification of a walked file (walk.py lines 34-40): a branch,
untracked (`None`), or one of the two exceptional markers carried as
data. -/
inductive VaultStatus where
  | untracked
  | branch (b : Nat)
  | physicalVaultFile
  | vaultCorruption
  deriving DecidableEq

/-- A vault as the walkers use it: its root path.  The vault's internal
branch logic is an external collaborator and enters as a function
argument where needed. -/
structure Vault where
  root : String
  deriving DecidableEq

/-- Python `str.strip()`: remove leading and trailing whitespace. -/
def pyStrip (s : String) : String :=
  ⟨dropLeadWS ((dropLeadWS s.data.reverse).reverse)⟩

/-- Python `str.split(sep)` for a one-character separator: split at every
occurrence, keeping empty pieces; the empty string yields `[""]`, so the
result is never the empty list. -/
def splitOnChar (sep : Char) : List Char → List (List Char)
  | [] => [[]]
  | c :: cs =>
    match splitOnChar sep cs with
    | [] => [[]]
    | g :: gs => if c == sep then [] :: g :: gs else (c :: g) :: gs

/-- `line.split("\t")` as a list of strings. -/
def splitTabStr (s : String) : List String :=
  (splitOnChar '\t' s.data).map (fun l => String.mk l)

/-- Components of a path à la `pathlib` (non-empty pieces between
slashes), for the `relative_to` ancestry test. -/
def pathParts (s : String) : List String :=
  ((splitOnChar '/' s.data).filter (fun l => !l.isEmpty)).map (fun l => String.mk l)

/-- Whether the first list leads the second (`relative_to` succeeds, and
`str.startswith` on character lists). -/
def isPre {α : Type} [DecidableEq α] : List α → List α → Bool
  | [], _ => true
  | _ :: _, [] => false
  | a :: as, b :: bs => if a = b then isPre as bs else false

/-- The base64 alphabet of RFC 4648. -/
def b64alphabet : List Char :=
  "ABCDEFGHIJKLMNOPQRSTUVWXYZabcdefghijklmnopqrstuvwxyz0123456789+/".toList

/-- Character for a 6-bit group. -/
def b64char (n : Nat) : Char := b64alphabet.getD n '?'

/-- 6-bit group of an alphabet character. -/
def b64value (c : Char) : Nat := b64alphabet.findIdx (fun d => d == c)

/-- Base64-encode a byte list, with `=` padding. -/
def b64encodeBytes : List Nat → List Char
  | [] => []
  | [b1] => [b64char (b1 / 4), b64char (b1 % 4 * 16), '=', '=']
  | [b1, b2] =>
    [b64char (b1 / 4), b64char (b1 % 4 * 16 + b2 / 16), b64char (b2 % 16 * 4), '=']
  | b1 :: b2 :: b3 :: rest =>
    b64char (b1 / 4) :: b64char (b1 % 4 * 16 + b2 / 16) ::
      b64char (b2 % 16 * 4 + b3 / 64) :: b64char (b3 % 64) :: b64encodeBytes rest

/-- Base64-decode a character list (padding-aware; the well-formed inputs
of interest are outputs of the encoder). -/
def b64decodeChars : List Char → List Nat
  | c1 :: c2 :: c3 :: c4 :: rest =>
    let v1 := b64value c1
    let v2 := b64value c2
    if c3 == '=' then [v1 * 4 + v2 / 16]
    else
      let v3 := b64value c3
      if c4 == '=' then [v1 * 4 + v2 / 16, v2 % 16 * 16 + v3 / 4]
      else (v1 * 4 + v2 / 16) :: (v2 % 16 * 16 + v3 / 4) ::
        (v3 % 4 * 64 + b64value c4) :: b64decodeChars rest
  | _ => []

/-- Modelled from the spec: `core.utils.base64.encode` is not under src/;
the spec describes the path encoding as base64 of the raw path bytes.
Paths here are ASCII, so a character's code point is its byte. -/
def base64encode (s : String) : String :=
  String.mk (b64encodeBytes (s.data.map Char.toNat))

/-- Modelled from the spec: `core.utils.base64.decode` followed by
`bytes.decode`, the inverse direction of the path encoding. -/
def base64decodeStr (s : String) : String :=
  String.mk ((b64decodeChars s.data).map Char.ofNat)

/-- Index at which the zipped traversal of two character lists first
differs: the `for i, (lhs, rhs) in enumerate(zip(bare, slashed))` loop of
`_base64_prefix`, whose `else` arm bumps `i` past the end when the zip is
exhausted without a difference. -/
def zipDiffIdx : List Char → List Char → Nat
  | a :: as, b :: bs => if a = b then zipDiffIdx as bs + 1 else 0
  | _, _ => 0

/-- mpistatWalker._base64_prefix (walk.py lines 192-205): the prefix of
`encode(path)` up to where it first differs from `encode(path + "/")` —
the whole of `encode(path)` when it is a proper prefix of the latter.
(The source would raise NameError for an empty path, whose encoding is
empty; vault roots are never empty.) -/
def base64PrefixOf (path : String) : String :=
  let bare := base64encode path
  let slashed := base64encode (path ++ "/")
  String.mk (bare.data.take (zipDiffIdx bare.data slashed.data))

/-- mpistatWalker._is_match (walk.py lines 207-224): try each vault's
distinguishing prefix against the encoded path; on a hit, decode and
verify true ancestry via `Path.relative_to`, continuing with the next
vault when the decoded path is not under that vault's root. -/
def isMatch : List (String × Vault) → String → Option (Vault × String)
  | [], _ => none
  | (pfx, vault) :: rest, encoded =>
    if isPre pfx.data encoded.data then
      let decoded := base64decodeStr encoded
      if isPre (pathParts vault.root) (pathParts decoded) then some (vault, decoded)
      else isMatch rest encoded
    else isMatch rest encoded

/-- mpistat field indices (walk.py lines 151-161). -/
def _SIZE : Nat := 0
/-- mpistat owner field index. -/
def _OWNER : Nat := 1
/-- mpistat group field index. -/
def _GROUP : Nat := 2
/-- mpistat atime field index. -/
def _ATIME : Nat := 3
/-- mpistat mtime field index. -/
def _MTIME : Nat := 4
/-- mpistat ctime field index. -/
def _CTIME : Nat := 5
/-- mpistat mode field index. -/
def _MODE : Nat := 6
/-- mpistat inode field index. -/
def _INODE : Nat := 7
/-- mpistat hardlink-count field index. -/
def _NLINKS : Nat := 8
/-- mpistat device field index. -/
def _DEVICE : Nat := 9

/-- The ten fields of an `os.stat_result`, in construction order. -/
structure StatRes where
  mode : Int
  inode : Int
  device : Int
  nlinks : Int
  owner : Int
  group : Int
  size : Int
  atime : Int
  mtime : Int
  ctime : Int
  deriving DecidableEq

/-- `stat.S_IFREG`: regular file with null permission bits. -/
def S_IFREG : Int := 32768

/-- Decimal digit accumulator for Python `int()`. -/
def pyIntAux : List Char → Nat → Option Nat
  | [], acc => some acc
  | c :: cs, acc =>
    let n := c.toNat
    if 48 ≤ n && n ≤ 57 then pyIntAux cs (acc * 10 + (n - 48)) else none

/-- Python `int()` on a snapshot field: an optional sign and decimal
digits; anything else raises ValueError. -/
def pyInt (s : String) : Except PyError Int :=
  match s.data with
  | [] => .error .valueError
  | '-' :: rest =>
    if rest.isEmpty then .error .valueError
    else
      match pyIntAux rest 0 with
      | some n => .ok (-(n : Int))
      | none => .error .valueError
  | l =>
    match pyIntAux l 0 with
    | some n => .ok ((n : Int))
    | none => .error .valueError

/-- mpistatWalker._make_stat (walk.py lines 226-242): asserts exactly ten
stat fields, then builds the stat tuple — regular-file mode with null
permissions, then the integer-parsed inode, device, hardlink count,
owner, group, size and the three timestamps. -/
def makeStat (stats : List String) : Except PyError StatRes :=
  if stats.length = 10 then do
    let inode ← pyInt (stats.getD _INODE "")
    let device ← pyInt (stats.getD _DEVICE "")
    let nlinks ← pyInt (stats.getD _NLINKS "")
    let owner ← pyInt (stats.getD _OWNER "")
    let grp ← pyInt (stats.getD _GROUP "")
    let size ← pyInt (stats.getD _SIZE "")
    let atime ← pyInt (stats.getD _ATIME "")
    let mtime ← pyInt (stats.getD _MTIME "")
    let ctime ← pyInt (stats.getD _CTIME "")
    pure ⟨S_IFREG, inode, device, nlinks, owner, grp, size, atime, mtime, ctime⟩
  else .error .assertionError

/-- The `File` dataclass of walk.py (lines 46-68): path, vault
classification, cached stat data, and the acquisition timestamp of that
data (seconds). -/
structure WFile where
  path : String
  branch : VaultStatus
  statData : StatRes
  timestamp : Int
  deriving DecidableEq

/-- `_RESTAT_AFTER` (walk.py line 44): `time.delta(hours =
int(os.getenv("RESTAT_AFTER", "36")))` in seconds — 36 hours unless the
environment overrides the hour count. -/
def RESTAT_AFTER (envHours : Option Nat) : Int :=
  3600 * ((envHours.getD 36 : Nat) : Int)

/-- File.stat (walk.py lines 54-62): re-stat the file when the cached
data is stale — `time.now() - self._timestamp > _RESTAT_AFTER` — storing
the fresh read and resetting the timestamp to now; otherwise return the
cache.  `now` is the clock at the access and `fresh` what a fresh
`path.stat()` read returns. -/
def statAccess (restatAfter : Int) (now : Int) (fresh : StatRes) (f : WFile) :
    StatRes × WFile :=
  if restatAfter < now - f.timestamp then
    (fresh, { f with statData := fresh, timestamp := now })
  else
    (f.statData, f)

/-- The mpistat walker's state: the vault dictionary keyed by
distinguishing prefix, and the snapshot's own modification timestamp. -/
structure MpiWalker where
  vaults : List (String × Vault)
  timestamp : Int
  deriving DecidableEq

/-- mpistatWalker.files (walk.py lines 244-259) on the decompressed
stream, given as its list of newline-terminated records; at end of stream
`readline` returns `""`.  The loop condition
`fields := mpistat.readline().strip().split("\t")` is never falsy
(`split` never yields the empty list), so the terminating line — empty
after `strip` — reaches `stats[_MODE]` with `stats == []` and raises
IndexError.  The result pairs the files yielded before the generator
stops with the terminal error, if any. -/
def mpistatFiles (branchOf : Vault → String → VaultStatus) (w : MpiWalker) :
    List String → List WFile × Option PyError
  | [] => ([], some .indexError)
  | line :: rest =>
    match splitTabStr (pyStrip line) with
    | [] => ([], none)
    | encoded :: stats =>
      if hm : _MODE < stats.length then
        if stats[_MODE] = "f" then
          match isMatch w.vaults encoded with
          | some (vault, path) =>
            match makeStat stats with
            | .ok st =>
              let r := mpistatFiles branchOf w rest
              (⟨path, branchOf vault path, st, w.timestamp⟩ :: r.1, r.2)
            | .error e => ([], some e)
          | none => mpistatFiles branchOf w rest
        else mpistatFiles branchOf w rest
      else ([], some .indexError)

/-- BaseWalker._common_vaults (walk.py lines 85-101): resolve each base
path to a vault, skipping — with a warning — any path whose resolution
raises VaultConflict (`resolve` returning `none`).  Returns the resolved
vaults and the warned paths.  (The source collects vaults in a set, but
each `Vault(...)` call yields a fresh object, so nothing is merged.) -/
def commonVaults (resolve : String → Option Vault) :
    List String → List Vault × List String
  | [] => ([], [])
  | p :: ps =>
    match resolve p with
    | some v =>
      let r := commonVaults resolve ps
      (v :: r.1, r.2)
    | none =>
      let r := commonVaults resolve ps
      (r.1, p :: r.2)

/-- FilesystemWalker.__init__ (walk.py lines 124-133): gather the common
vaults of the base paths, then `assert len(self._vaults) > 0` — the
construction fails exactly when nothing resolved. -/
def fsWalkerInit (resolve : String → Option Vault) (bases : List String) :
    Except PyError (List Vault) :=
  let vs := (commonVaults resolve bases).1
  if vs.isEmpty then .error .assertionError else .ok vs

/-- A database holding an older staged status row (id 1) for file 7,
whose only stakeholder is uid 5. -/
def dbOlderRow : DB := ⟨[⟨1, 7, "staged"⟩], [], [], [(7, 5)], 2⟩

/-- A database with no status rows yet; file 7's stakeholder is uid 5. -/
def dbFresh : DB := ⟨[], [], [], [(7, 5)], 1⟩

/-- `dbOlderRow` after a successful staged persist: the new row id 2 is
appended and the id sequence advances. -/
def dbOlderRowAfter : DB :=
  ⟨[⟨1, 7, "staged"⟩, ⟨2, 7, "staged"⟩], [], [], [(7, 5)], 3⟩

/-- The vault rooted at /data/a. -/
def vaultA : Vault := ⟨"/data/a"⟩

/-- The vault rooted at /data/ab — a root whose name extends /data/a's. -/
def vaultAB : Vault := ⟨"/data/ab"⟩

/-- The walker's vault dictionary for the two colliding roots, keyed by
distinguishing prefix. -/
def demoVaults : List (String × Vault) :=
  [(base64PrefixOf "/data/a", vaultA), (base64PrefixOf "/data/ab", vaultAB)]

/-- A snapshot walker over the two demo vaults. -/
def demoWalker : MpiWalker := ⟨demoVaults, 100⟩

/-- A trivial external branch classifier. -/
def demoBranch : Vault → String → VaultStatus := fun _ _ => VaultStatus.untracked

/-- A cached stat record. -/
def statA : StatRes := ⟨S_IFREG, 6, 0, 1, 1, 2, 10, 3, 4, 5⟩

/-- A fresh stat record differing from `statA`. -/
def statB : StatRes := ⟨S_IFREG, 6, 0, 1, 1, 2, 11, 3, 9, 5⟩

/-- A walked file whose metadata was acquired at time 0. -/
def fileA : WFile := ⟨"/data/a/f1", .untracked, statA, 0⟩

/-- A vault resolver for which only /vaults/x resolves; every other base
raises VaultConflict. -/
def resolveDemo : String → Option Vault :=
  fun p => if p = "/vaults/x" then some ⟨"/vaults/x"⟩ else none

/-- After the status insert, `exists` finds the first matching row — the
fresh one exactly when no older match was present. -/
theorem existsStatus_statusInsert (st : BaseState) (db : DB) (f : PFile) :
    existsStatus st (statusInsert st db f) f
      = some ((existsStatus st db f).getD db.nextId) := by
  unfold existsStatus statusInsert
  rw [List.find?_append]
  cases h : db.status.find? (fun r => r.state == st.db_type && r.file == f.db_id) with
  | some r => simp [h]
  | none => simp [h]

/-- The status insert's statement is grammatical — its `values` is
followed by a parenthesized row — while `mark_notified`'s, which splices
a select after `values`, is not, for wildcard and concrete stakeholders
alike. -/
theorem insertSql_grammar :
    insertValuesWellFormed persistInsertSql = true ∧
    (∀ sk : Option Nat, insertValuesWellFormed (markNotifiedInsertSql sk) = false) := by
  refine ⟨rfl, fun sk => ?_⟩
  cases sk <;> rfl

/-- The notification insert raises on every call: the grammar check on
its statement fails before any row is inserted. -/
theorem aux_raises (db : DB) (sid fid : Nat) (sk : Option Nat) :
    markNotifiedAux db sid fid sk = .error .sqlSyntaxError := by
  unfold markNotifiedAux
  cases sk <;> rfl

/-- persist with a truthy notified field never returns: the wildcard
mark_notified it triggers dies in the malformed insert. -/
theorem persist_truthy_error (st : BaseState) (db : DB) (f : PFile)
    (hn : pyTruthy st.notified = true) :
    persist st db f = .error .sqlSyntaxError := by
  simp only [persist, hn, if_true, existsStatus_statusInsert, aux_raises]

/-- Every `mark_notified` call raises the notification insert's syntax
error — wildcard or concrete stakeholder, whether or not the status row
already existed. -/
theorem mark_notified_error (st : BaseState) (db : DB) (f : PFile)
    (sk : Option Nat) : mark_notified st db f sk = .error .sqlSyntaxError := by
  unfold mark_notified resolveStatus
  cases h : existsStatus st db f with
  | some i => simp only [aux_raises]
  | none =>
    by_cases hn : pyTruthy st.notified = true
    · rw [persist_truthy_error st db f hn]
    · simp [persist, hn, aux_raises]

/-- C1 (amended): whenever `persist` actually returns — which requires a
non-truthy notified field, since a truthy one sends persist into the
failing wildcard `mark_notified` — the `exists` immediately after it in
the same transaction returns the id of the first status row for `(file,
state)` in table order: the just-created id exactly when no older such
row exists, and the oldest row's id otherwise (the lookup has no ORDER
BY, so it does not prefer the new row). -/
theorem exists_after_persist (st : BaseState) (db : DB) (f : PFile)
    (i : Nat) (db' : DB) (h : persist st db f = .ok (i, db')) :
    existsStatus st db' f = some ((existsStatus st db f).getD i) := by
  simp only [persist] at h
  by_cases hn : pyTruthy st.notified = true
  · rw [if_pos hn] at h
    cases he : existsStatus st (statusInsert st db f) f with
    | some sid =>
      simp only [he, aux_raises] at h
      exact Except.noConfusion h
    | none =>
      rw [existsStatus_statusInsert] at he
      cases he
  · rw [if_neg hn] at h
    simp only [Except.ok.injEq, Prod.mk.injEq] at h
    obtain ⟨rfl, rfl⟩ := h
    exact existsStatus_statusInsert st db f

/-- C1 witness: in the database with the older staged row, the staged
persist (notified criterion False) returns id 2 and the immediate
`exists` returns the older row's id 1. -/
theorem exists_after_persist_witness :
    existsStatus (stateStaged (some false)) dbOlderRowAfter ⟨7⟩
      = some ((existsStatus (stateStaged (some false)) dbOlderRow ⟨7⟩).getD 2) :=
  exists_after_persist (stateStaged (some false)) dbOlderRow ⟨7⟩ 2
    dbOlderRowAfter rfl

/-- C1 counterexample: with an older staged row (id 1) for file 7 already
present, `persist` succeeds with the new row id 2, but the immediate
`exists` returns id 1 — not the just-created id the claim promises. -/
theorem exists_after_persist_cex :
    persist (stateStaged (some false)) dbOlderRow ⟨7⟩
      = .ok (2, dbOlderRowAfter) ∧
    existsStatus (stateStaged (some false)) dbOlderRowAfter ⟨7⟩ = some 1 ∧
    existsStatus (stateStaged (some false)) dbOlderRowAfter ⟨7⟩ ≠ some 2 := by
  refine ⟨rfl, rfl, by decide⟩

/-- Python `split` never yields the empty list. -/
theorem splitOnChar_ne_nil (sep : Char) (l : List Char) : splitOnChar sep l ≠ [] := by
  induction l with
  | nil => simp [splitOnChar]
  | cons c cs ih =>
    unfold splitOnChar
    cases h : splitOnChar sep cs with
    | nil => simp
    | cons g gs =>
      cases hc : c == sep <;> simp [hc]

/-- The tab split of a line never yields the empty list — the while-test
of `files` is always true. -/
theorem splitTabStr_ne_nil (s : String) : splitTabStr s ≠ [] := by
  unfold splitTabStr
  intro h
  exact splitOnChar_ne_nil '\t' s.data (List.map_eq_nil_iff.mp h)

/-- C3: `mpistatWalker.files` never reaches a clean end of iteration: on
every stream the loop condition — `split` of a stripped line is never the
empty list — stays true at the terminating line, where `stats[_MODE]`
with `stats = []` raises IndexError; in particular the empty stream and a
lone blank line both end in IndexError rather than a clean stop. -/
theorem mpistatFiles_no_clean_end :
    (∀ (branchOf : Vault → String → VaultStatus) (w : MpiWalker)
       (lines : List String), (mpistatFiles branchOf w lines).2.isSome = true) ∧
    mpistatFiles demoBranch demoWalker [] = ([], some PyError.indexError) ∧
    mpistatFiles demoBranch demoWalker [""] = ([], some PyError.indexError) := by
  refine ⟨?_, rfl, rfl⟩
  intro branchOf w lines
  induction lines with
  | nil => rfl
  | cons line rest ih =>
    unfold mpistatFiles
    cases hsp : splitTabStr (pyStrip line) with
    | nil => exact absurd hsp (splitTabStr_ne_nil _)
    | cons encoded stats =>
      by_cases hm : _MODE < stats.length
      · simp only [dif_pos hm]
        by_cases hf : stats[_MODE] = "f"
        · simp only [if_pos hf]
          cases hmt : isMatch w.vaults encoded with
          | some m =>
            cases m with
            | mk vault path =>
              cases hms : makeStat stats with
              | ok stres => simpa using ih
              | error e => rfl
          | none => exact ih
        · simp only [if_neg hf]
          exact ih
      · simp only [dif_neg hm]
        rfl

/-- C4: `persist` of a state constructed with its notified flag true
never completes: the wildcard `mark_notified` it immediately triggers
executes `insert into notifications (status, stakeholder) values
<select ...>` — `VALUES` followed by `select` fails PostgreSQL's grammar
— so the call raises a syntax error, no record is marked for any
stakeholder, and no `file_cte` query gets to select the file. -/
theorem persist_notified_raises (st : BaseState) (db : DB) (f : PFile)
    (hn : st.notified = some true) :
    persist st db f = .error .sqlSyntaxError ∧
    insertValuesWellFormed (markNotifiedInsertSql none) = false :=
  ⟨persist_truthy_error st db f (by rw [hn]; rfl), rfl⟩

/-- C4 witness: the staged persist with notified=true on the fresh
database raises the notification insert's syntax error. -/
theorem persist_notified_raises_witness :
    persist (stateStaged (some true)) dbFresh ⟨7⟩ = .error .sqlSyntaxError ∧
    insertValuesWellFormed (markNotifiedInsertSql none) = false :=
  persist_notified_raises (stateStaged (some true)) dbFresh ⟨7⟩ rfl

/-- C5: there is no silent idempotent no-op — already the first
`mark_notified` call for a concrete stakeholder raises: the statement it
executes splices its select directly after `values`, which PostgreSQL's
grammar rejects, so no call ever inserts a notification row or completes
without error. -/
theorem mark_notified_concrete_raises (st : BaseState) (db : DB) (f : PFile)
    (s : Nat) :
    mark_notified st db f (some s) = .error .sqlSyntaxError ∧
    insertValuesWellFormed (markNotifiedInsertSql (some s)) = false :=
  ⟨mark_notified_error st db f (some s), rfl⟩

/-- C6: the wildcard `mark_notified` likewise raises on every call — its
`insert ... values <select ...>` statement is not grammatical PostgreSQL
— so it never flags any stakeholder, and although it does persist a
missing status row first, the transaction dies at the insert. -/
theorem mark_notified_wildcard_raises (st : BaseState) (db : DB) (f : PFile) :
    mark_notified st db f none = .error .sqlSyntaxError ∧
    insertValuesWellFormed (markNotifiedInsertSql none) = false :=
  ⟨mark_notified_error st db f none, rfl⟩

/-- C7: `_is_match` is sound — whenever it returns a vault and a path,
the path is exactly the decoded record path and it truly lies under that
vault's root (the strict `relative_to` ancestry check), and some
registered distinguishing prefix of that vault matched the encoded form;
a prefix hit whose decode is not under the root is rejected and the scan
continues. -/
theorem isMatch_sound (vaults : List (String × Vault)) (enc : String)
    (v : Vault) (p : String) (h : isMatch vaults enc = some (v, p)) :
    p = base64decodeStr enc ∧
    isPre (pathParts v.root) (pathParts p) = true ∧
    ∃ pfx, (pfx, v) ∈ vaults ∧ isPre pfx.data enc.data = true := by
  induction vaults with
  | nil => cases h
  | cons pv rest ih =>
    cases pv with
    | mk pfx0 v0 =>
      unfold isMatch at h
      by_cases h1 : isPre pfx0.data enc.data = true
      · rw [if_pos h1] at h
        by_cases h2 :
            isPre (pathParts v0.root) (pathParts (base64decodeStr enc)) = true
        · rw [if_pos h2] at h
          simp only [Option.some.injEq, Prod.mk.injEq] at h
          obtain ⟨rfl, rfl⟩ := h
          exact ⟨rfl, h2, pfx0, List.mem_cons_self _ _, h1⟩
        · rw [if_neg h2] at h
          obtain ⟨ha, hb, pfx, hmem, hpre⟩ := ih h
          exact ⟨ha, hb, pfx, List.mem_cons_of_mem _ hmem, hpre⟩
      · rw [if_neg h1] at h
        obtain ⟨ha, hb, pfx, hmem, hpre⟩ := ih h
        exact ⟨ha, hb, pfx, List.mem_cons_of_mem _ hmem, hpre⟩

/-- C7 witness: over the colliding roots /data/a and /data/ab, the record
for /data/ab/f1 — whose encoding also starts with /data/a's
distinguishing prefix — is matched to the /data/ab vault, decoded
exactly, and certified to lie under /data/ab. -/
theorem isMatch_sound_witness :
    "/data/ab/f1" = base64decodeStr (base64encode "/data/ab/f1") ∧
    isPre (pathParts vaultAB.root) (pathParts "/data/ab/f1") = true ∧
    ∃ pfx, (pfx, vaultAB) ∈ demoVaults ∧
      isPre pfx.data (base64encode "/data/ab/f1").data = true :=
  isMatch_sound demoVaults (base64encode "/data/ab/f1") vaultAB "/data/ab/f1"
    (by decide)

/-- C8: the stat accessor performs the fresh read and resets the
acquisition timestamp exactly when the cached data's age strictly exceeds
the staleness bound, and hands back the cache with the file unchanged —
no re-read — otherwise; the bound defaults to 36 hours (129600 seconds)
and follows the environment's hour count when set. -/
theorem stat_staleness (ra now : Int) (fresh : StatRes) (f : WFile) :
    RESTAT_AFTER none = 129600 ∧
    (∀ h : Nat, RESTAT_AFTER (some h) = 3600 * (h : Int)) ∧
    (ra < now - f.timestamp →
       statAccess ra now fresh f
         = (fresh, { f with statData := fresh, timestamp := now })) ∧
    (¬ ra < now - f.timestamp →
       statAccess ra now fresh f = (f.statData, f)) := by
  refine ⟨by decide, fun h => rfl, fun h => ?_, fun h => ?_⟩
  · unfold statAccess
    rw [if_pos h]
  · unfold statAccess
    rw [if_neg h]

/-- C8 witness: with bound 5 and age 10 the cache is refreshed and
restamped; with bound 20 and age 10 the cache is returned unchanged. -/
theorem stat_staleness_witness :
    statAccess 5 10 statB fileA
      = (statB, { fileA with statData := statB, timestamp := 10 }) ∧
    statAccess 20 10 statB fileA = (fileA.statData, fileA) :=
  ⟨(stat_staleness 5 10 statB fileA).2.2.1 (by decide),
   (stat_staleness 20 10 statB fileA).2.2.2 (by decide)⟩

/-- C9: vault construction over a collection of base paths: every path
whose resolution raises VaultConflict is skipped into the warning list
rather than aborting, the walker keeps exactly the vaults that resolve
cleanly, and construction fails — with the assertion — precisely when
zero vaults resolve. -/
theorem walker_conflict_handling (resolve : String → Option Vault)
    (bases : List String) :
    (commonVaults resolve bases).1 = bases.filterMap resolve ∧
    (commonVaults resolve bases).2
      = bases.filter (fun p => (resolve p).isNone) ∧
    (fsWalkerInit resolve bases = .error .assertionError
      ↔ bases.filterMap resolve = []) ∧
    (∀ vs, fsWalkerInit resolve bases = .ok vs →
       vs = bases.filterMap resolve) := by
  have h1 : (commonVaults resolve bases).1 = bases.filterMap resolve := by
    induction bases with
    | nil => rfl
    | cons p ps ih =>
      simp only [commonVaults, List.filterMap_cons]
      cases h : resolve p with
      | some v => simp [h, ih]
      | none => simp [h, ih]
  have h2 : (commonVaults resolve bases).2
      = bases.filter (fun p => (resolve p).isNone) := by
    clear h1
    induction bases with
    | nil => rfl
    | cons p ps ih =>
      simp only [commonVaults, List.filter_cons]
      cases h : resolve p with
      | some v => simp [h, ih]
      | none => simp [h, ih]
  refine ⟨h1, h2, ?_, ?_⟩
  · unfold fsWalkerInit
    rw [h1]
    by_cases he : bases.filterMap resolve = []
    · simp [he]
    · have hne : (bases.filterMap resolve).isEmpty = false := by
        simpa [List.isEmpty_iff] using he
      simp [hne, he]
  · intro vs hv
    unfold fsWalkerInit at hv
    rw [h1] at hv
    by_cases he : (bases.filterMap resolve).isEmpty
    · rw [if_pos he] at hv
      cases hv
    · rw [if_neg he] at hv
      injection hv with h
      exact h.symm

/-- C9 witness: of the bases /bad and /vaults/x only the latter resolves,
so construction succeeds with exactly that vault and warns about /bad;
with only /bad supplied, construction fails with the assertion. -/
theorem walker_conflict_handling_witness :
    fsWalkerInit resolveDemo ["/bad"] = .error .assertionError ∧
    ([(⟨"/vaults/x"⟩ : Vault)] = (["/bad", "/vaults/x"]).filterMap resolveDemo) ∧
    (commonVaults resolveDemo ["/bad", "/vaults/x"]).2 = ["/bad"] :=
  ⟨(walker_conflict_handling resolveDemo ["/bad"]).2.2.1.mpr (by decide),
   (walker_conflict_handling resolveDemo ["/bad", "/vaults/x"]).2.2.2
     [⟨"/vaults/x"⟩] rfl,
   by rw [(walker_conflict_handling resolveDemo ["/bad", "/vaults/x"]).2.1]; decide⟩

/-- C10: for every state criterion the fragment and parameter tuple of
`file_cte` are consistent — the number of `%s` placeholders equals the
parameter count — and both decompose clause by clause in the same order:
the state clause with its state parameter, then the notified clause with
its parameter when that criterion is concrete, then (warned only) the
lead-time clause with its parameter when concrete; each clause carries
exactly one placeholder. -/
theorem file_cte_placeholders :
    (∀ st : BaseState,
       countPS (file_cte st).1.data = (file_cte st).2.length ∧
       file_cte st
         = (statusCteSql
             ++ (match st.notified with
                 | some _ => notifiedClauseSql
                 | none => ""),
            [SqlParam.s st.db_type]
             ++ (match st.notified with
                 | some b => [SqlParam.b b]
                 | none => []))) ∧
    (∀ wst : WarnedState,
       countPS (warned_file_cte wst).1.data = (warned_file_cte wst).2.length ∧
       warned_file_cte wst
         = (warnedCteSql
             ++ (match wst.notified with
                 | some _ => warnedNotifiedClauseSql
                 | none => "")
             ++ (match wst.tminus with
                 | some _ => warnedTminusClauseSql
                 | none => ""),
            [SqlParam.s "warned"]
             ++ (match wst.notified with
                 | some b => [SqlParam.b b]
                 | none => [])
             ++ (match wst.tminus with
                 | some tm => [SqlParam.iv tm]
                 | none => []))) ∧
    countPS statusCteSql.data = 1 ∧
    countPS notifiedClauseSql.data = 1 ∧
    countPS warnedCteSql.data = 1 ∧
    countPS warnedNotifiedClauseSql.data = 1 ∧
    countPS warnedTminusClauseSql.data = 1 := by
  refine ⟨?_, ?_, by decide, by decide, by decide, by decide, by decide⟩
  · intro st
    cases st with
    | mk d n =>
      cases n with
      | none => exact ⟨rfl, rfl⟩
      | some b => exact ⟨rfl, rfl⟩
  · intro wst
    cases wst with
    | mk n t =>
      cases n <;> cases t
      · exact ⟨rfl, rfl⟩
      · exact ⟨rfl, rfl⟩
      · exact ⟨rfl, rfl⟩
      · exact ⟨rfl, rfl⟩
